import Mathlib

/-!
# Verification of the image-optimizer service

Shallow embedding of `apps/api/routes/upload` (the `POST /upload/optimize`
handler, `uploadRoutes`) and of `apps/api/libs/compress` (the response
compression middleware) of the image-optimizer repository, together with
theorems settling the behavioural claims about them.

External effects (the `sharp` image library, the file system, `nanoid`)
are modelled by an explicit `Oracle` record carrying the outcome of each
external call, and the file system is an explicit association list from
paths to byte lists.  The handler is a pure function of the request body,
the oracle and the initial file system, returning the HTTP status, the
response body, the final file system and a trace of pipeline events.
-/

namespace ImageOptimizer

/-! ## JavaScript value helpers

The handler reads its optional form fields with JavaScript truthiness
(`x || default`, `x ? Number(x) : …`).  We model the relevant fragment:
an absent field is `none`, and the empty string is the only falsy string.
-/

/-- JS `x || d` for an optional string field: absent or empty gives `d`. -/
def jsOrString (x : Option String) (d : String) : String :=
  match x with
  | none => d
  | some s => if s = "" then d else s

/-- A JavaScript number as used by the handler: either NaN or an integer.
The handler only ever builds numbers with `Number(string)`. -/
inductive JSNum where
  | nan : JSNum
  | num : Int → JSNum
deriving DecidableEq, Repr

/-- Decimal digits to a natural number, most significant first. -/
def decDigitsAux : List Char → Nat → Option Nat
  | [], acc => some acc
  | c :: cs, acc =>
      if c.isDigit then decDigitsAux cs (acc * 10 + (c.toNat - 48)) else none

/-- Model of JavaScript `Number()` restricted to the inputs relevant here:
`""` parses to `0`, decimal integer strings with an optional leading `-`
parse to their value, and every other string is NaN.  (Fractional,
hexadecimal, `+`-signed and whitespace-padded numerals are outside the
modelled fragment.) -/
def jsNumber (s : String) : JSNum :=
  if s = "" then .num 0
  else
    match s.data with
    | '-' :: c :: cs =>
        match decDigitsAux (c :: cs) 0 with
        | some n => .num (-(n : Int))
        | none => .nan
    | l =>
        match decDigitsAux l 0 with
        | some n => .num (n : Int)
        | none => .nan

/-- JS truthiness of a number: `0` and `NaN` are falsy. -/
def JSNum.truthy : JSNum → Bool
  | .nan => false
  | .num n => n != 0

/-- Line 132: `const quality = body.quality ? Number(body.quality) : 80`. -/
def qualityOf (q : Option String) : JSNum :=
  match q with
  | none => .num 80
  | some s => if s = "" then .num 80 else jsNumber s

/-- Lines 133-134: `body.width ? Number(body.width) : undefined`
(and the same for `height`). -/
def dimOf (x : Option String) : Option JSNum :=
  match x with
  | none => none
  | some s => if s = "" then none else some (jsNumber s)

/-- JS truthiness of a `number | undefined` value. -/
def truthyDim : Option JSNum → Bool
  | none => false
  | some n => n.truthy

/-- Line 236/237: the `width || undefined` (resp. `height || undefined`)
argument actually passed to `resize`: the numeric value when truthy,
absent otherwise (so `0` and `NaN` become `undefined`). -/
def dimArg : Option JSNum → Option Int
  | some (.num n) => if n != 0 then some n else none
  | _ => none

/-! ## File-system model

The upload directory as an association list from path strings to byte
lists; later entries are shadowed by earlier ones, and writing a path
removes any previous entry for it. -/

abbrev FS := List (String × List Nat)

/-- `fs.writeFileSync` / `sharp(..).toFile`: (over)write one path. -/
def fsWrite (fs : FS) (p : String) (b : List Nat) : FS :=
  (p, b) :: fs.filter (fun e => e.1 != p)

/-- `fs.unlinkSync`: remove one path. -/
def fsRemove (fs : FS) (p : String) : FS :=
  fs.filter (fun e => e.1 != p)

/-- `fs.existsSync`. -/
def fsExists (fs : FS) (p : String) : Bool :=
  fs.any (fun e => e.1 == p)

/-- Read a path's bytes, if present. -/
def fsRead (fs : FS) (p : String) : Option (List Nat) :=
  (fs.find? (fun e => e.1 == p)).map (·.2)

/-- Model of `path.join(dir, name)` for a directory without a trailing
slash, as used with `UPLOAD_DIR`. -/
def joinPath (dir f : String) : String := dir ++ "/" ++ f

/-! ## The optimize handler -/

/-- The multipart `file` field: its `size` and the bytes its
`arrayBuffer()` yields. -/
structure FileData where
  size : Nat
  content : List Nat
deriving DecidableEq, Repr

/-- The `POST /upload/optimize` request body (lines 323-338): the `file`
field plus five optional string fields.  `file : Option FileData` lets us
state the handler's own `!file` check. -/
structure RequestBody where
  file : Option FileData
  format : Option String
  quality : Option String
  width : Option String
  height : Option String
  sourceFormat : Option String
deriving DecidableEq, Repr

/-- Server configuration: `UPLOAD_DIR` (default `"./uploads"`) and
`PUBLIC_URL` (default `"/uploads"`), lines 114-116. -/
structure Config where
  uploadDir : String
  publicUrl : String
deriving DecidableEq, Repr

/-- Outcomes of the external calls one request makes, in program order.
`Except String α` models a call that either returns an `α` or throws an
error whose `String(error)` rendering is the payload. -/
structure Oracle where
  /-- `file.arrayBuffer()` (line 143): `some e` means it throws `e`. -/
  arrayBufferErr : Option String
  /-- `nanoid()` (line 146). -/
  fileId : String
  /-- `sharp(originalBuffer).jpeg({quality: 90}).toFile(tempJpegPath)`
  (lines 193-195): on success, the JPEG bytes written to the temp file. -/
  avifToFileRes : Except String (List Nat)
  /-- `sharp(originalBuffer).jpeg({quality: 90}).toBuffer()`
  (lines 206-208): the in-memory fallback JPEG buffer. -/
  avifToBufferRes : Except String (List Nat)
  /-- `fs.unlinkSync(tempJpegPath)` (line 217). -/
  unlinkRes : Except String Unit
  /-- The synchronous option validation of the selected encoder call in the
  `switch` (lines 244-266), e.g. `webp({quality})` with an invalid quality. -/
  encoderRes : Except String Unit
  /-- `sharpInstance.toBuffer()` (line 273): the encoded output bytes. -/
  finalBufferRes : Except String (List Nat)
  /-- `fs.writeFileSync(outputPath, …)` (line 279). -/
  writeRes : Except String Unit
  /-- `sharp(outputBuffer).metadata()` (line 283): the output pixel
  dimensions (`width?`/`height?` may be undefined). -/
  outMetadataRes : Except String (Option Nat × Option Nat)

/-- What the pipeline reads its input from after the optional AVIF
pre-transcode: an in-memory buffer (`sharp(Buffer)`) or a file path
(`sharp(tempJpegPath)`). -/
inductive PipeSrc where
  | buffer (bytes : List Nat)
  | fromFile (path : String)
deriving DecidableEq, Repr

/-- Pipeline events, for stating the order of stages. -/
inductive Ev where
  | validate
  | getBuffer
  /-- AVIF pre-transcode via the temporary JPEG file succeeded. -/
  | avifTempFile (tempPath : String)
  /-- AVIF pre-transcode fell back to the in-memory JPEG buffer. -/
  | avifMemory
  /-- both AVIF intermediate conversions failed; continue on the original. -/
  | avifOriginal
  | resize (width height : Option Int) (fit : String) (withoutEnlargement : Bool)
  | encode (format : String) (quality : JSNum)
  | write (path : String) (bytes : List Nat)
  | respond (status : Nat)
deriving DecidableEq, Repr

/-- Lines 147-149: clamp `body.format || "webp"` to the allow-list. -/
def allowedFormats : List String := ["webp", "avif", "jpeg", "png"]

/-- The output format derived from the request's `format` field
(lines 130 and 147-149). -/
def outputFormatOf (format : Option String) : String :=
  let f := jsOrString format "webp"
  if allowedFormats.contains f then f else "webp"

/-- Lines 181-231: the AVIF workaround.  When `sourceFormat = "avif"`,
try to write the input re-encoded as JPEG (quality 90) to
`UPLOAD_DIR/fileId_temp.jpg` and point the pipeline at that file; if that
throws, fall back to an in-memory JPEG buffer; if that throws too, the
outer `catch` swallows the error and the pipeline keeps the original
buffer.  The `finally` block removes the temp file whenever it exists,
itself swallowing any unlink error.  Returns the pipeline source, the
file system after the step and the step's trace events. -/
def avifStep (uploadDir fileId sourceFormat : String) (orig : List Nat)
    (o : Oracle) (fs : FS) : PipeSrc × FS × List Ev :=
  if sourceFormat = "avif" then
    let tempPath := joinPath uploadDir (fileId ++ "_temp.jpg")
    let step : Option PipeSrc × FS × List Ev :=
      match o.avifToFileRes with
      | .ok jpegBytes =>
          (some (.fromFile tempPath), fsWrite fs tempPath jpegBytes,
            [Ev.avifTempFile tempPath])
      | .error _ =>
          match o.avifToBufferRes with
          | .ok jpegBuffer => (some (.buffer jpegBuffer), fs, [Ev.avifMemory])
          | .error _ => (none, fs, [])
    let fs2 :=
      if fsExists step.2.1 tempPath then
        match o.unlinkRes with
        | .ok _ => fsRemove step.2.1 tempPath
        | .error _ => step.2.1
      else step.2.1
    match step.1 with
    | some src => (src, fs2, step.2.2)
    | none => (.buffer orig, fs2, [Ev.avifOriginal])
  else (.buffer orig, fs, [])

/-- The response body: an error object (`{error, details?, stage?}`) or
the success object (`{success: true, result: {id, format, size, width,
height, url}}`). -/
inductive RespBody where
  | errorBody (error : String) (details : Option String) (stage : Option String)
  | successBody (id : String) (format : String) (size : Nat)
      (width : Option Nat) (height : Option Nat) (url : String)
deriving DecidableEq, Repr

/-- Does an error body carry a `stage` field? -/
def hasStage : RespBody → Bool
  | .errorBody _ _ (some _) => true
  | _ => false

/-- What one request produces: HTTP status, response body, final file
system, pipeline source actually used (when the pipeline was built) and
the event trace. -/
structure HandlerResult where
  status : Nat
  respBody : RespBody
  fs : FS
  pipeSrc : Option PipeSrc
  trace : List Ev
deriving Repr

/-- The `POST /upload/optimize` handler (lines 127-321), as a function of
the request body, the oracle of external-call outcomes and the initial
file system.  The input-metadata probe of lines 161-175 only logs and its
errors are caught on the spot, so it has no observable effect and is not
modelled. -/
def optimizeHandler (cfg : Config) (b : RequestBody) (o : Oracle) (fs0 : FS) :
    HandlerResult :=
  let quality := qualityOf b.quality
  let width := dimOf b.width
  let height := dimOf b.height
  let sourceFormat := jsOrString b.sourceFormat "unknown"
  match b.file with
  | none =>
      ⟨400, .errorBody "Invalid file data" none none, fs0, none,
        [Ev.validate, Ev.respond 400]⟩
  | some f =>
      if f.size = 0 then
        ⟨400, .errorBody "Invalid file data" none none, fs0, none,
          [Ev.validate, Ev.respond 400]⟩
      else
        match o.arrayBufferErr with
        | some e =>
            ⟨500, .errorBody "Image processing failed" (some e) none, fs0, none,
              [Ev.validate, Ev.respond 500]⟩
        | none =>
            let buffer := f.content
            let fileId := o.fileId
            let outputFormat := outputFormatOf b.format
            let filename := fileId ++ "." ++ outputFormat
            let outputPath := joinPath cfg.uploadDir filename
            let av := avifStep cfg.uploadDir fileId sourceFormat buffer o fs0
            let src := av.1
            let fs1 := av.2.1
            let resizeEvs :=
              if truthyDim width || truthyDim height then
                [Ev.resize (dimArg width) (dimArg height) "inside" true]
              else []
            let trace3 := [Ev.validate, Ev.getBuffer] ++ av.2.2 ++ resizeEvs
              ++ [Ev.encode outputFormat quality]
            match o.encoderRes with
            | .error e =>
                ⟨500, .errorBody "Image processing failed" (some e) none, fs1,
                  some src, trace3 ++ [Ev.respond 500]⟩
            | .ok _ =>
                match o.finalBufferRes with
                | .error e =>
                    ⟨500, .errorBody "Image processing failed in final stage"
                        (some e) (some "final_processing"), fs1, some src,
                      trace3 ++ [Ev.respond 500]⟩
                | .ok outputBuffer =>
                    match o.writeRes with
                    | .error e =>
                        ⟨500, .errorBody "Image processing failed in final stage"
                            (some e) (some "final_processing"), fs1, some src,
                          trace3 ++ [Ev.respond 500]⟩
                    | .ok _ =>
                        let fs2 := fsWrite fs1 outputPath outputBuffer
                        let trace4 := trace3 ++ [Ev.write outputPath outputBuffer]
                        match o.outMetadataRes with
                        | .error e =>
                            ⟨500, .errorBody
                                "Image processing failed in final stage"
                                (some e) (some "final_processing"), fs2, some src,
                              trace4 ++ [Ev.respond 500]⟩
                        | .ok (w, h) =>
                            ⟨200, .successBody fileId outputFormat
                                outputBuffer.length w h
                                (cfg.publicUrl ++ "/" ++ filename), fs2, some src,
                              trace4 ++ [Ev.respond 200]⟩

/-! ## The response-compression middleware

Embedding of `apps/api/libs/compress` (lines 1-104): the `mapResponse`
hook of the `compression` plugin.  The two Bun compressors
(`Bun.gzipSync`, `Bun.deflateSync`) are opaque byte-list functions passed
as parameters `gz` and `df`; the source's `compressors` record maps both
`br` and `gzip` to `Bun.gzipSync` (lines 26-31). -/

abbrev Headers := List (String × String)

/-- Look a header up by exact key. -/
def headerGet (h : Headers) (k : String) : Option String :=
  (h.find? (fun e => e.1 == k)).map (·.2)

/-- Set a header, replacing any previous value for the key. -/
def headerSet (h : Headers) (k v : String) : Headers :=
  (k, v) :: h.filter (fun e => e.1 != k)

/-- Lines 5-9: the middleware options. -/
structure CompressionOptions where
  encodings : List String
  threshold : Nat
  contentTypes : Option (List String)
deriving DecidableEq, Repr

/-- Lines 11-22: the default options. -/
def defaultOptions : CompressionOptions :=
  { encodings := ["gzip", "br", "deflate"]
    threshold := 2048
    contentTypes := some ["application/json", "text/plain", "text/html",
      "text/css", "text/javascript", "application/javascript"] }

/-- The keys of the `compressors` record (lines 26-31). -/
def compressorKeys : List String := ["br", "gzip", "deflate"]

/-- Lines 33-37: `isValidEncoding`. -/
def isValidEncoding (encoding : String) : Bool :=
  compressorKeys.contains encoding

/-- The `compressors` record (lines 26-31): `br` falls back to gzip, so
both `br` and `gzip` map to `gz`; `deflate` maps to `df`. -/
def compressorFor (gz df : List Nat → List Nat) (enc : String) :
    List Nat → List Nat :=
  if enc = "br" then gz else if enc = "gzip" then gz else df

/-- JS `String.prototype.split(",")` on the character list: always at
least one (possibly empty) group. -/
def splitOnComma : List Char → List (List Char)
  | [] => [[]]
  | c :: cs =>
      match splitOnComma cs with
      | [] => [[]]
      | g :: gs => if c = ',' then [] :: g :: gs else (c :: g) :: gs

/-- The whitespace characters `trim` removes in the inputs modelled. -/
def isWS (c : Char) : Bool :=
  c = ' ' || c = '\t' || c = '\n' || c = '\r'

/-- JS `String.prototype.trim()` on the character list. -/
def trimChars (l : List Char) : List Char :=
  ((l.dropWhile isWS).reverse.dropWhile isWS).reverse

/-- JS `e.split(";")[0]`: everything before the first `;`. -/
def dropSemiSuffix (l : List Char) : List Char :=
  l.takeWhile (fun c => c ≠ ';')

/-- JS `String.prototype.startsWith` on character lists
(first the string, then the pattern). -/
def startsWithChars : List Char → List Char → Bool
  | _, [] => true
  | [], _ :: _ => false
  | c :: cs, d :: ds => c = d && startsWithChars cs ds

/-- Lines 62-66: split `Accept-Encoding` on commas, trim each entry and
drop any `;q=…` suffix, and take the first entry contained in the
configured encodings list. -/
def preferredEncodingOf (acceptEncoding : String) (encodings : List String) :
    Option String :=
  ((splitOnComma acceptEncoding.data).map
      (fun e => String.mk (dropSemiSuffix (trimChars e)))).find?
    (fun enc => encodings.contains enc)

/-- The response value as the middleware observes it: whether
`typeof response === "object"`, and its serialized text
(`JSON.stringify(response)` for an object, `response?.toString() ?? ""`
otherwise, lines 82-85). -/
structure RespModel where
  isObject : Bool
  text : String
deriving DecidableEq, Repr

/-- Lines 39-54: `getContentType`.  A set, non-empty `Content-Type`
header wins; otherwise the type is inferred from the response value.
(The source's `headers["Content-Type"]` truthiness check makes an empty
header value fall through.) -/
def getContentType (respIsObject : Bool) (headers : Headers) : String :=
  match headerGet headers "Content-Type" with
  | some ct =>
      if ct = "" then
        if respIsObject then "application/json; charset=utf-8"
        else "text/plain; charset=utf-8"
      else ct
  | none =>
      if respIsObject then "application/json; charset=utf-8"
      else "text/plain; charset=utf-8"

/-- The UTF-8 bytes of the serialized text (`new TextEncoder().encode`,
line 94). -/
def utf8Bytes (s : String) : List Nat :=
  s.toUTF8.toList.map (fun b => b.toNat)

/-- What `mapResponse` returns: the original response object untouched,
or a fresh compressed `Response` with the given body bytes and
`Content-Type` (line 96-101). -/
inductive MapResult where
  | original
  | compressed (bodyBytes : List Nat) (contentType : String)
deriving DecidableEq, Repr

/-- Lines 60-102: the `mapResponse` hook.  `acceptEncoding` is the
request's `Accept-Encoding` header (`none` when absent, defaulted to
`""`); `headers` is `set.headers`.  Returns the mapped response and the
final `set.headers`.  (The source's `text.length` counts UTF-16 code
units; `String.length` counts code points, which agrees on the
basic multilingual plane.) -/
def mapResponse (gz df : List Nat → List Nat) (opts : CompressionOptions)
    (acceptEncoding : Option String) (resp : RespModel) (headers : Headers) :
    MapResult × Headers :=
  let accept := acceptEncoding.getD ""
  match preferredEncodingOf accept opts.encodings with
  | none => (.original, headers)
  | some enc =>
      if !isValidEncoding enc then (.original, headers)
      else
        let contentType := getContentType resp.isObject headers
        let contentTypeMatches :=
          match opts.contentTypes with
          | none => true
          | some types =>
              types.any (fun t => startsWithChars contentType.data t.data)
        if !contentTypeMatches then (.original, headers)
        else
          if resp.text.length < opts.threshold then (.original, headers)
          else
            let headers1 := headerSet headers "Content-Encoding" enc
            let data := utf8Bytes resp.text
            (.compressed (compressorFor gz df enc data) contentType, headers1)

/-- The pipeline stage an event belongs to, for stating the stage order:
validate (0), buffer (1), AVIF pre-transcode (2), resize (3), encode (4),
write (5), respond (6). -/
def stageOf : Ev → Nat
  | .validate => 0
  | .getBuffer => 1
  | .avifTempFile _ => 2
  | .avifMemory => 2
  | .avifOriginal => 2
  | .resize _ _ _ _ => 3
  | .encode _ _ => 4
  | .write _ _ => 5
  | .respond _ => 6

/-! ## Shared concrete inputs for witnesses -/

/-- A sample server configuration (the source's defaults). -/
def cfg0 : Config := ⟨"./uploads", "/uploads"⟩

/-- A sample non-empty uploaded file. -/
def fileOk : FileData := ⟨3, [1, 2, 3]⟩

/-- An oracle on which every external call succeeds. -/
def oracleOk : Oracle :=
  ⟨none, "id123", .ok [10, 11], .ok [12, 13], .ok (), .ok (), .ok [1, 2, 3, 4],
    .ok (), .ok (some 640, some 480)⟩

/-- An oracle on which the selected encoder call throws while validating
its options (a synchronous throw inside the `switch`, outside the inner
`try`), and everything else succeeds. -/
def oracleEncoderBoom : Oracle :=
  ⟨none, "id123", .ok [10, 11], .ok [12, 13], .ok (), .error "Error: boom",
    .ok [1, 2, 3, 4], .ok (), .ok (some 640, some 480)⟩

/-- A serialized response body longer than the 2048-character threshold. -/
def bigText : String := String.mk (List.replicate 2500 'a')

/-- A sample object response with a long serialized body. -/
def respBig : RespModel := ⟨true, bigText⟩

/-! ## Helper lemmas -/

theorem fsExists_eq_true_iff (fs : FS) (q : String) :
    fsExists fs q = true ↔ ∃ e ∈ fs, e.1 = q := by
  simp [fsExists, List.any_eq_true]

theorem fsExists_fsWrite_iff (fs : FS) (p q : String) (b : List Nat) :
    fsExists (fsWrite fs p b) q = true ↔ q = p ∨ fsExists fs q = true := by
  simp only [fsExists_eq_true_iff, fsWrite, List.mem_cons, List.mem_filter,
    bne_iff_ne]
  constructor
  · rintro ⟨e, (rfl | ⟨he, _⟩), hq⟩
    · exact Or.inl hq.symm
    · exact Or.inr ⟨e, he, hq⟩
  · rintro (rfl | ⟨e, he, hq⟩)
    · exact ⟨(q, b), Or.inl rfl, rfl⟩
    · by_cases hep : e.1 = p
      · exact ⟨(p, b), Or.inl rfl, hep ▸ hq⟩
      · exact ⟨e, Or.inr ⟨he, hep⟩, hq⟩

theorem fsExists_fsRemove_iff (fs : FS) (p q : String) :
    fsExists (fsRemove fs p) q = true ↔ q ≠ p ∧ fsExists fs q = true := by
  simp only [fsExists_eq_true_iff, fsRemove, List.mem_filter, bne_iff_ne]
  constructor
  · rintro ⟨e, ⟨he, hne⟩, hq⟩
    exact ⟨hq ▸ hne, ⟨e, he, hq⟩⟩
  · rintro ⟨hqp, e, he, hq⟩
    exact ⟨e, ⟨he, by rw [hq]; exact hqp⟩, hq⟩

theorem fsExists_fsRemove_self (fs : FS) (p : String) :
    fsExists (fsRemove fs p) p = false := by
  cases h : fsExists (fsRemove fs p) p with
  | false => rfl
  | true => exact absurd rfl ((fsExists_fsRemove_iff fs p p).mp h).1

theorem fsRead_fsWrite_self (fs : FS) (p : String) (b : List Nat) :
    fsRead (fsWrite fs p b) p = some b := by
  simp [fsRead, fsWrite]

theorem joinPath_ne_of_suffix_ne (dir a b : String) (h : a ≠ b) :
    joinPath dir a ≠ joinPath dir b := by
  intro hEq
  apply h
  have hd : (joinPath dir a).data = (joinPath dir b).data := by rw [hEq]
  simp only [joinPath, String.data_append, List.append_assoc] at hd
  have := List.append_cancel_left hd
  have := List.append_cancel_left this
  exact String.ext this

theorem output_ne_temp (fid fmt : String) :
    fid ++ "." ++ fmt ≠ fid ++ "_temp.jpg" := by
  intro hEq
  have hd : (fid ++ "." ++ fmt).data = (fid ++ "_temp.jpg").data := by rw [hEq]
  rw [String.data_append, String.data_append, String.data_append,
    List.append_assoc] at hd
  have h2 := List.append_cancel_left hd
  simp at h2

/-- The AVIF step contributes no event when the source format is not
`"avif"`, and exactly one of the three possible events otherwise. -/
theorem avifStep_trace_cases (u fid s : String) (orig : List Nat) (o : Oracle)
    (fs : FS) :
    (avifStep u fid s orig o fs).2.2 = [] ∨
    (avifStep u fid s orig o fs).2.2 =
      [Ev.avifTempFile (joinPath u (fid ++ "_temp.jpg"))] ∨
    (avifStep u fid s orig o fs).2.2 = [Ev.avifMemory] ∨
    (avifStep u fid s orig o fs).2.2 = [Ev.avifOriginal] := by
  unfold avifStep
  by_cases hs : s = "avif"
  · simp only [hs, if_pos rfl]
    rcases hA : o.avifToFileRes with eA | jb
    · rcases hB : o.avifToBufferRes with eB | jb'
      · simp
      · simp
    · simp
  · simp [hs]

/-- Shape of the trace once validation and `arrayBuffer()` succeed: the
fixed prefix, the AVIF step's events, the optional resize event and the
encode event, in this order, followed by the remaining events, which are
all write or respond events. -/
theorem optimizeHandler_trace_shape (cfg : Config) (b : RequestBody)
    (o : Oracle) (fs0 : FS) (f : FileData) (hf : b.file = some f)
    (hsz : f.size ≠ 0) (hbuf : o.arrayBufferErr = none) :
    ∃ rest,
      (optimizeHandler cfg b o fs0).trace =
        [Ev.validate, Ev.getBuffer] ++
          (avifStep cfg.uploadDir o.fileId (jsOrString b.sourceFormat "unknown")
              f.content o fs0).2.2 ++
          (if truthyDim (dimOf b.width) || truthyDim (dimOf b.height) then
              [Ev.resize (dimArg (dimOf b.width)) (dimArg (dimOf b.height))
                "inside" true]
            else []) ++
          [Ev.encode (outputFormatOf b.format) (qualityOf b.quality)] ++
          rest ∧ (∀ e ∈ rest, 5 ≤ stageOf e) ∧
          (rest.map stageOf).Pairwise (· ≤ ·) ∧
          rest.getLast? =
            some (Ev.respond (optimizeHandler cfg b o fs0).status) := by
  simp only [optimizeHandler, hf, hsz, hbuf, if_neg hsz]
  rcases hE : o.encoderRes with e | u
  · exact ⟨[Ev.respond 500], by simp [List.append_assoc], by simp [stageOf],
      by simp [stageOf], rfl⟩
  · rcases hF : o.finalBufferRes with e | out
    · exact ⟨[Ev.respond 500], by simp [List.append_assoc], by simp [stageOf],
        by simp [stageOf], rfl⟩
    · rcases hW : o.writeRes with e | u'
      · exact ⟨[Ev.respond 500], by simp [List.append_assoc], by simp [stageOf],
          by simp [stageOf], rfl⟩
      · rcases hM : o.outMetadataRes with e | ⟨w, h⟩
        · exact ⟨[Ev.write (joinPath cfg.uploadDir
              (o.fileId ++ "." ++ outputFormatOf b.format)) out,
              Ev.respond 500], by simp [List.append_assoc],
              by simp [stageOf], by simp [stageOf], rfl⟩
        · exact ⟨[Ev.write (joinPath cfg.uploadDir
              (o.fileId ++ "." ++ outputFormatOf b.format)) out,
              Ev.respond 200], by simp [List.append_assoc],
              by simp [stageOf], by simp [stageOf], rfl⟩

/-- Once validation and `arrayBuffer()` succeed, the pipeline's input
source is exactly what the AVIF step selected. -/
theorem optimizeHandler_pipeSrc (cfg : Config) (b : RequestBody) (o : Oracle)
    (fs0 : FS) (f : FileData) (hf : b.file = some f) (hsz : f.size ≠ 0)
    (hbuf : o.arrayBufferErr = none) :
    (optimizeHandler cfg b o fs0).pipeSrc =
      some ((avifStep cfg.uploadDir o.fileId
          (jsOrString b.sourceFormat "unknown") f.content o fs0).1) := by
  simp only [optimizeHandler, hf, hbuf, if_neg hsz]
  rcases o.encoderRes with e | u
  · rfl
  · rcases o.finalBufferRes with e | out
    · rfl
    · rcases o.writeRes with e | u'
      · rfl
      · rcases o.outMetadataRes with e | ⟨w, h⟩ <;> rfl

/-- Once validation and `arrayBuffer()` succeed, the final file system is
the AVIF step's file system, possibly extended by the single write of the
output file. -/
theorem optimizeHandler_fs_cases (cfg : Config) (b : RequestBody) (o : Oracle)
    (fs0 : FS) (f : FileData) (hf : b.file = some f) (hsz : f.size ≠ 0)
    (hbuf : o.arrayBufferErr = none) :
    (optimizeHandler cfg b o fs0).fs =
      (avifStep cfg.uploadDir o.fileId (jsOrString b.sourceFormat "unknown")
          f.content o fs0).2.1 ∨
    ∃ out, (optimizeHandler cfg b o fs0).fs =
      fsWrite (avifStep cfg.uploadDir o.fileId
          (jsOrString b.sourceFormat "unknown") f.content o fs0).2.1
        (joinPath cfg.uploadDir (o.fileId ++ "." ++ outputFormatOf b.format))
        out := by
  simp only [optimizeHandler, hf, hbuf, if_neg hsz]
  rcases o.encoderRes with e | u
  · exact Or.inl rfl
  · rcases o.finalBufferRes with e | out
    · exact Or.inl rfl
    · rcases o.writeRes with e | u'
      · exact Or.inl rfl
      · rcases o.outMetadataRes with e | ⟨w, h⟩
        · exact Or.inr ⟨out, rfl⟩
        · exact Or.inr ⟨out, rfl⟩

/-- When the source format is `"avif"` and `unlinkSync` does not throw,
the AVIF step leaves no temporary file behind and adds no path at all to
the file system. -/
theorem avifStep_fs_clean (u fid : String) (orig : List Nat) (o : Oracle)
    (fs : FS) (hunlink : o.unlinkRes = .ok ()) :
    fsExists (avifStep u fid "avif" orig o fs).2.1
      (joinPath u (fid ++ "_temp.jpg")) = false ∧
    ∀ p, fsExists (avifStep u fid "avif" orig o fs).2.1 p = true →
      fsExists fs p = true := by
  unfold avifStep
  simp only [if_pos rfl]
  rcases hA : o.avifToFileRes with eA | jb
  · rcases hB : o.avifToBufferRes with eB | jb' <;>
      · cases hex : fsExists fs (joinPath u (fid ++ "_temp.jpg")) with
        | false =>
            simp only [hex, hunlink, Bool.false_eq_true, if_neg
              (by simp [hex] : ¬ fsExists fs (joinPath u (fid ++ "_temp.jpg"))
                = true)]
            exact ⟨hex, fun p hp => hp⟩
        | true =>
            simp only [hex, hunlink, if_pos rfl]
            exact ⟨fsExists_fsRemove_self fs _,
              fun p hp => ((fsExists_fsRemove_iff fs _ p).mp hp).2⟩
  · have hex : fsExists (fsWrite fs (joinPath u (fid ++ "_temp.jpg")) jb)
        (joinPath u (fid ++ "_temp.jpg")) = true :=
      (fsExists_fsWrite_iff fs _ _ jb).mpr (Or.inl rfl)
    simp only [hex, hunlink, if_pos rfl]
    refine ⟨fsExists_fsRemove_self _ _, fun p hp => ?_⟩
    obtain ⟨hpne, hp2⟩ := (fsExists_fsRemove_iff _ _ p).mp hp
    rcases (fsExists_fsWrite_iff fs _ p jb).mp hp2 with hpe | hfs
    · exact absurd hpe hpne
    · exact hfs

/-! ## Claims about the optimize handler -/

/-- **C1.**  A request whose `file` field is absent or has size 0 is
answered with status 400 and body `{"error": "Invalid file data"}`, and
the upload directory is untouched. -/
theorem optimize_rejects_missing_or_empty_file (cfg : Config)
    (b : RequestBody) (o : Oracle) (fs0 : FS)
    (h : b.file = none ∨ ∃ f, b.file = some f ∧ f.size = 0) :
    (optimizeHandler cfg b o fs0).status = 400 ∧
    (optimizeHandler cfg b o fs0).respBody =
      RespBody.errorBody "Invalid file data" none none ∧
    (optimizeHandler cfg b o fs0).fs = fs0 := by
  rcases h with h | ⟨f, hf, hsz⟩
  · simp [optimizeHandler, h]
  · simp [optimizeHandler, hf, hsz]

/-- Witness for C1 at a concrete zero-size upload. -/
theorem optimize_rejects_missing_or_empty_file_witness :
    ((⟨some ⟨0, []⟩, none, none, none, none, none⟩ : RequestBody).file = none ∨
      ∃ f, (⟨some ⟨0, []⟩, none, none, none, none, none⟩ : RequestBody).file =
          some f ∧ f.size = 0) ∧
    ((optimizeHandler cfg0 ⟨some ⟨0, []⟩, none, none, none, none, none⟩
          oracleOk [("a", [7])]).status = 400 ∧
      (optimizeHandler cfg0 ⟨some ⟨0, []⟩, none, none, none, none, none⟩
          oracleOk [("a", [7])]).respBody =
        RespBody.errorBody "Invalid file data" none none ∧
      (optimizeHandler cfg0 ⟨some ⟨0, []⟩, none, none, none, none, none⟩
          oracleOk [("a", [7])]).fs = [("a", [7])]) :=
  ⟨Or.inr ⟨⟨0, []⟩, rfl, rfl⟩,
    optimize_rejects_missing_or_empty_file cfg0 _ oracleOk _
      (Or.inr ⟨⟨0, []⟩, rfl, rfl⟩)⟩

/-- **C2.**  The output format used for encoding, for the output filename
extension and in the response body equals the request's `format` field
when that field is one of `webp`, `avif`, `jpeg`, `png`, and equals
`webp` in every other case (absent, empty, or outside the allow-list). -/
theorem optimize_format_clamped (cfg : Config) (b : RequestBody) (o : Oracle)
    (fs0 : FS) (f : FileData) (hf : b.file = some f) (hsz : f.size ≠ 0)
    (hbuf : o.arrayBufferErr = none) :
    outputFormatOf b.format =
      (match b.format with
        | some s => if s ∈ ["webp", "avif", "jpeg", "png"] then s else "webp"
        | none => "webp") ∧
    Ev.encode (outputFormatOf b.format) (qualityOf b.quality) ∈
      (optimizeHandler cfg b o fs0).trace ∧
    ((optimizeHandler cfg b o fs0).status = 200 →
      ∃ sz w h out,
        (optimizeHandler cfg b o fs0).respBody =
          RespBody.successBody o.fileId (outputFormatOf b.format) sz w h
            (cfg.publicUrl ++ "/"
              ++ (o.fileId ++ "." ++ outputFormatOf b.format)) ∧
        fsRead (optimizeHandler cfg b o fs0).fs
            (joinPath cfg.uploadDir
              (o.fileId ++ "." ++ outputFormatOf b.format)) =
          some out) := by
  refine ⟨?_, ?_, ?_⟩
  · cases hfmt : b.format with
    | none => decide
    | some s =>
        by_cases hs : s = ""
        · subst hs; decide
        · simp only [outputFormatOf, jsOrString, allowedFormats, if_neg hs]
          by_cases hmem : s ∈ ["webp", "avif", "jpeg", "png"]
          · simp [hmem]
          · simp [hmem]
  · obtain ⟨rest, htr, -⟩ :=
      optimizeHandler_trace_shape cfg b o fs0 f hf hsz hbuf
    rw [htr]; simp
  · intro h200
    simp only [optimizeHandler, hf, hbuf, if_neg hsz] at h200 ⊢
    rcases hE : o.encoderRes with e | u <;> simp [hE] at h200 ⊢
    rcases hF : o.finalBufferRes with e | out <;> simp [hF] at h200 ⊢
    rcases hW : o.writeRes with e | u' <;> simp [hW] at h200 ⊢
    rcases hM : o.outMetadataRes with e | ⟨w, h⟩ <;> simp [hM] at h200 ⊢
    exact ⟨out, fsRead_fsWrite_self _ _ _⟩

/-- Witness for C2 at a concrete request asking for `png`. -/
theorem optimize_format_clamped_witness :
    ((⟨some fileOk, some "png", none, none, none, none⟩ : RequestBody).file =
        some fileOk ∧ fileOk.size ≠ 0 ∧ oracleOk.arrayBufferErr = none) ∧
    (outputFormatOf (some "png") =
        (match (some "png" : Option String) with
          | some s => if s ∈ ["webp", "avif", "jpeg", "png"] then s else "webp"
          | none => "webp") ∧
      Ev.encode (outputFormatOf (some "png")) (qualityOf none) ∈
        (optimizeHandler cfg0
            ⟨some fileOk, some "png", none, none, none, none⟩ oracleOk
            []).trace ∧
      ((optimizeHandler cfg0 ⟨some fileOk, some "png", none, none, none, none⟩
            oracleOk []).status = 200 →
        ∃ sz w h out,
          (optimizeHandler cfg0
              ⟨some fileOk, some "png", none, none, none, none⟩ oracleOk
              []).respBody =
            RespBody.successBody oracleOk.fileId (outputFormatOf (some "png"))
              sz w h
              (cfg0.publicUrl ++ "/"
                ++ (oracleOk.fileId ++ "." ++ outputFormatOf (some "png"))) ∧
          fsRead (optimizeHandler cfg0
                ⟨some fileOk, some "png", none, none, none, none⟩ oracleOk
                []).fs
              (joinPath cfg0.uploadDir
                (oracleOk.fileId ++ "." ++ outputFormatOf (some "png"))) =
            some out)) :=
  ⟨⟨rfl, by decide, rfl⟩,
    optimize_format_clamped cfg0
      ⟨some fileOk, some "png", none, none, none, none⟩ oracleOk [] fileOk rfl
      (by decide) rfl⟩

/-- **C8.**  The quality value passed to the selected encoder is
`Number(quality)` when the `quality` field is supplied and non-empty, and
`80` when the field is absent or empty; the same single value is passed
whatever output format is selected. -/
theorem optimize_quality_selection (cfg : Config) (b : RequestBody)
    (o : Oracle) (fs0 : FS) (f : FileData) (hf : b.file = some f)
    (hsz : f.size ≠ 0) (hbuf : o.arrayBufferErr = none) :
    (∀ s, b.quality = some s → s ≠ "" → qualityOf b.quality = jsNumber s) ∧
    ((b.quality = none ∨ b.quality = some "") →
      qualityOf b.quality = JSNum.num 80) ∧
    Ev.encode (outputFormatOf b.format) (qualityOf b.quality) ∈
      (optimizeHandler cfg b o fs0).trace := by
  refine ⟨?_, ?_, ?_⟩
  · intro s hq hs
    simp [qualityOf, hq, hs]
  · rintro (hq | hq) <;> simp [qualityOf, hq]
  · obtain ⟨rest, htr, -⟩ :=
      optimizeHandler_trace_shape cfg b o fs0 f hf hsz hbuf
    rw [htr]; simp

/-- Witness for C8 at a concrete request with `quality = "75"`. -/
theorem optimize_quality_selection_witness :
    ((⟨some fileOk, some "avif", some "75", none, none, none⟩ :
          RequestBody).file = some fileOk ∧
      fileOk.size ≠ 0 ∧ oracleOk.arrayBufferErr = none) ∧
    ((∀ s, (⟨some fileOk, some "avif", some "75", none, none, none⟩ :
            RequestBody).quality = some s → s ≠ "" →
        qualityOf (⟨some fileOk, some "avif", some "75", none, none, none⟩ :
            RequestBody).quality = jsNumber s) ∧
      (((⟨some fileOk, some "avif", some "75", none, none, none⟩ :
            RequestBody).quality = none ∨
        (⟨some fileOk, some "avif", some "75", none, none, none⟩ :
            RequestBody).quality = some "") →
        qualityOf (⟨some fileOk, some "avif", some "75", none, none, none⟩ :
            RequestBody).quality = JSNum.num 80) ∧
      Ev.encode (outputFormatOf (some "avif")) (qualityOf (some "75")) ∈
        (optimizeHandler cfg0
            ⟨some fileOk, some "avif", some "75", none, none, none⟩ oracleOk
            []).trace) :=
  ⟨⟨rfl, by decide, rfl⟩,
    optimize_quality_selection cfg0
      ⟨some fileOk, some "avif", some "75", none, none, none⟩ oracleOk []
      fileOk rfl (by decide) rfl⟩

/-- **C3.**  When every pipeline stage succeeds, the encoded output bytes
are written to `join(UPLOAD_DIR, fileId + "." + outputFormat)` and the
response is `{success: true, result: {id, format, size, width, height,
url}}` with `size` the byte length of the written output buffer, the
dimensions those read from the output buffer's metadata, and
`url = PUBLIC_URL + "/" + fileId + "." + outputFormat`. -/
theorem optimize_success_response (cfg : Config) (b : RequestBody)
    (o : Oracle) (fs0 : FS) (f : FileData) (out : List Nat) (w h : Option Nat)
    (hf : b.file = some f) (hsz : f.size ≠ 0) (hbuf : o.arrayBufferErr = none)
    (hE : o.encoderRes = .ok ()) (hF : o.finalBufferRes = .ok out)
    (hW : o.writeRes = .ok ()) (hM : o.outMetadataRes = .ok (w, h)) :
    (optimizeHandler cfg b o fs0).status = 200 ∧
    fsRead (optimizeHandler cfg b o fs0).fs
        (joinPath cfg.uploadDir (o.fileId ++ "." ++ outputFormatOf b.format)) =
      some out ∧
    Ev.write
        (joinPath cfg.uploadDir (o.fileId ++ "." ++ outputFormatOf b.format))
        out ∈ (optimizeHandler cfg b o fs0).trace ∧
    (optimizeHandler cfg b o fs0).respBody =
      RespBody.successBody o.fileId (outputFormatOf b.format) out.length w h
        (cfg.publicUrl ++ "/" ++ (o.fileId ++ "." ++ outputFormatOf b.format)) := by
  simp only [optimizeHandler, hf, hbuf, if_neg hsz, hE, hF, hW, hM]
  refine ⟨?_, ?_, ?_, ?_⟩ <;> simp [fsRead_fsWrite_self]

/-- Witness for C3 at a fully successful concrete request. -/
theorem optimize_success_response_witness :
    ((⟨some fileOk, some "jpeg", none, none, none, none⟩ : RequestBody).file =
        some fileOk ∧ fileOk.size ≠ 0 ∧ oracleOk.arrayBufferErr = none ∧
      oracleOk.encoderRes = .ok () ∧
      oracleOk.finalBufferRes = .ok [1, 2, 3, 4] ∧ oracleOk.writeRes = .ok () ∧
      oracleOk.outMetadataRes = .ok (some 640, some 480)) ∧
    ((optimizeHandler cfg0 ⟨some fileOk, some "jpeg", none, none, none, none⟩
          oracleOk []).status = 200 ∧
      fsRead (optimizeHandler cfg0
            ⟨some fileOk, some "jpeg", none, none, none, none⟩ oracleOk []).fs
          (joinPath cfg0.uploadDir
            (oracleOk.fileId ++ "." ++ outputFormatOf (some "jpeg"))) =
        some [1, 2, 3, 4] ∧
      Ev.write
          (joinPath cfg0.uploadDir
            (oracleOk.fileId ++ "." ++ outputFormatOf (some "jpeg")))
          [1, 2, 3, 4] ∈
        (optimizeHandler cfg0 ⟨some fileOk, some "jpeg", none, none, none, none⟩
            oracleOk []).trace ∧
      (optimizeHandler cfg0 ⟨some fileOk, some "jpeg", none, none, none, none⟩
          oracleOk []).respBody =
        RespBody.successBody oracleOk.fileId (outputFormatOf (some "jpeg"))
          (List.length [1, 2, 3, 4]) (some 640) (some 480)
          (cfg0.publicUrl ++ "/"
            ++ (oracleOk.fileId ++ "." ++ outputFormatOf (some "jpeg")))) :=
  ⟨⟨rfl, by decide, rfl, rfl, rfl, rfl, rfl⟩,
    optimize_success_response cfg0
      ⟨some fileOk, some "jpeg", none, none, none, none⟩ oracleOk [] fileOk
      [1, 2, 3, 4] (some 640) (some 480) rfl (by decide) rfl rfl rfl rfl rfl⟩

/-- **C4 counterexample.**  A valid request whose selected encoder call
throws (outside the inner `try`) is answered by the outer `catch`
(lines 316-320) with a 500 whose body `{error, details}` has no `stage`
field, refuting "every 500 error body includes a `stage` field". -/
theorem optimize_500_missing_stage_counterexample :
    (optimizeHandler cfg0 ⟨some fileOk, none, none, none, none, none⟩
        oracleEncoderBoom []).status = 500 ∧
    (optimizeHandler cfg0 ⟨some fileOk, none, none, none, none, none⟩
        oracleEncoderBoom []).respBody =
      RespBody.errorBody "Image processing failed" (some "Error: boom") none ∧
    hasStage (optimizeHandler cfg0 ⟨some fileOk, none, none, none, none, none⟩
        oracleEncoderBoom []).respBody = false := by
  refine ⟨rfl, rfl, rfl⟩

/-- **C4 as amended.**  Every 500 response carries `details = String(error)`;
a 500 produced by the final-processing `catch` (lines 307-315) also carries
`stage = "final_processing"`, while a 500 produced by the outer `catch`
(lines 316-320) carries no `stage` field. -/
theorem optimize_500_bodies (cfg : Config) (b : RequestBody) (o : Oracle)
    (fs0 : FS) (h500 : (optimizeHandler cfg b o fs0).status = 500) :
    (∃ e, (optimizeHandler cfg b o fs0).respBody =
        RespBody.errorBody "Image processing failed in final stage" (some e)
          (some "final_processing")) ∨
    (∃ e, (optimizeHandler cfg b o fs0).respBody =
        RespBody.errorBody "Image processing failed" (some e) none) := by
  rcases hfile : b.file with _ | f
  · simp [optimizeHandler, hfile] at h500
  · by_cases hsz : f.size = 0
    · simp [optimizeHandler, hfile, hsz] at h500
    · rcases hbuf : o.arrayBufferErr with _ | e
      · simp only [optimizeHandler, hfile, hbuf, if_neg hsz] at h500 ⊢
        rcases hE : o.encoderRes with e | u
        · simp only [hE]
          exact Or.inr ⟨e, rfl⟩
        · rcases hF : o.finalBufferRes with e | out
          · simp only [hE, hF]
            exact Or.inl ⟨e, rfl⟩
          · rcases hW : o.writeRes with e | u'
            · simp only [hE, hF, hW]
              exact Or.inl ⟨e, rfl⟩
            · rcases hM : o.outMetadataRes with e | ⟨w, h⟩
              · simp only [hE, hF, hW, hM]
                exact Or.inl ⟨e, rfl⟩
              · simp [hE, hF, hW, hM] at h500
      · simp only [optimizeHandler, hfile, hbuf, if_neg hsz]
        exact Or.inr ⟨e, rfl⟩

/-- Witness for the amended C4 at the concrete encoder-throw input. -/
theorem optimize_500_bodies_witness :
    (optimizeHandler cfg0 ⟨some fileOk, none, none, none, none, none⟩
        oracleEncoderBoom []).status = 500 ∧
    ((∃ e, (optimizeHandler cfg0 ⟨some fileOk, none, none, none, none, none⟩
          oracleEncoderBoom []).respBody =
        RespBody.errorBody "Image processing failed in final stage" (some e)
          (some "final_processing")) ∨
      (∃ e, (optimizeHandler cfg0 ⟨some fileOk, none, none, none, none, none⟩
          oracleEncoderBoom []).respBody =
        RespBody.errorBody "Image processing failed" (some e) none)) :=
  ⟨rfl, optimize_500_bodies cfg0 ⟨some fileOk, none, none, none, none, none⟩
      oracleEncoderBoom [] rfl⟩

/-- **C5.**  When `sourceFormat = "avif"` the pipeline input is first
re-encoded to an intermediate JPEG: through the temporary file
`join(UPLOAD_DIR, fileId + "_temp.jpg")` when `toFile` succeeds, through
an in-memory buffer when the temporary-file path throws, and on the
original input buffer when both intermediate conversions throw.  For any
other `sourceFormat` no intermediate conversion occurs. -/
theorem optimize_avif_pretranscode (cfg : Config) (b : RequestBody)
    (o : Oracle) (fs0 : FS) (f : FileData) (hf : b.file = some f)
    (hsz : f.size ≠ 0) (hbuf : o.arrayBufferErr = none) :
    (b.sourceFormat = some "avif" →
      (∀ jb, o.avifToFileRes = .ok jb →
        (optimizeHandler cfg b o fs0).pipeSrc =
          some (PipeSrc.fromFile
            (joinPath cfg.uploadDir (o.fileId ++ "_temp.jpg"))) ∧
        Ev.avifTempFile (joinPath cfg.uploadDir (o.fileId ++ "_temp.jpg")) ∈
          (optimizeHandler cfg b o fs0).trace) ∧
      (∀ e jb, o.avifToFileRes = .error e → o.avifToBufferRes = .ok jb →
        (optimizeHandler cfg b o fs0).pipeSrc = some (PipeSrc.buffer jb) ∧
        Ev.avifMemory ∈ (optimizeHandler cfg b o fs0).trace) ∧
      (∀ e e', o.avifToFileRes = .error e → o.avifToBufferRes = .error e' →
        (optimizeHandler cfg b o fs0).pipeSrc =
          some (PipeSrc.buffer f.content) ∧
        Ev.avifOriginal ∈ (optimizeHandler cfg b o fs0).trace)) ∧
    (b.sourceFormat ≠ some "avif" →
      (optimizeHandler cfg b o fs0).pipeSrc = some (PipeSrc.buffer f.content) ∧
      (∀ p, Ev.avifTempFile p ∉ (optimizeHandler cfg b o fs0).trace) ∧
      Ev.avifMemory ∉ (optimizeHandler cfg b o fs0).trace ∧
      Ev.avifOriginal ∉ (optimizeHandler cfg b o fs0).trace) := by
  obtain ⟨rest, htr, hrest, -, -⟩ :=
    optimizeHandler_trace_shape cfg b o fs0 f hf hsz hbuf
  have hPS := optimizeHandler_pipeSrc cfg b o fs0 f hf hsz hbuf
  constructor
  · intro hsrc
    have hs : jsOrString b.sourceFormat "unknown" = "avif" := by
      simp [jsOrString, hsrc]
    refine ⟨?_, ?_, ?_⟩
    · intro jb hA
      have h1 : (avifStep cfg.uploadDir o.fileId
          (jsOrString b.sourceFormat "unknown") f.content o fs0).1 =
          PipeSrc.fromFile (joinPath cfg.uploadDir (o.fileId ++ "_temp.jpg")) := by
        simp [avifStep, hs, hA]
      have h2 : (avifStep cfg.uploadDir o.fileId
          (jsOrString b.sourceFormat "unknown") f.content o fs0).2.2 =
          [Ev.avifTempFile (joinPath cfg.uploadDir (o.fileId ++ "_temp.jpg"))] := by
        simp [avifStep, hs, hA]
      exact ⟨by rw [hPS, h1], by rw [htr, h2]; simp⟩
    · intro e jb hA hB
      have h1 : (avifStep cfg.uploadDir o.fileId
          (jsOrString b.sourceFormat "unknown") f.content o fs0).1 =
          PipeSrc.buffer jb := by
        simp [avifStep, hs, hA, hB]
      have h2 : (avifStep cfg.uploadDir o.fileId
          (jsOrString b.sourceFormat "unknown") f.content o fs0).2.2 =
          [Ev.avifMemory] := by
        simp [avifStep, hs, hA, hB]
      exact ⟨by rw [hPS, h1], by rw [htr, h2]; simp⟩
    · intro e e' hA hB
      have h1 : (avifStep cfg.uploadDir o.fileId
          (jsOrString b.sourceFormat "unknown") f.content o fs0).1 =
          PipeSrc.buffer f.content := by
        simp [avifStep, hs, hA, hB]
      have h2 : (avifStep cfg.uploadDir o.fileId
          (jsOrString b.sourceFormat "unknown") f.content o fs0).2.2 =
          [Ev.avifOriginal] := by
        simp [avifStep, hs, hA, hB]
      exact ⟨by rw [hPS, h1], by rw [htr, h2]; simp⟩
  · intro hne
    have hs' : jsOrString b.sourceFormat "unknown" ≠ "avif" := by
      rcases hsf : b.sourceFormat with _ | s
      · decide
      · by_cases hempty : s = ""
        · subst hempty; decide
        · simp only [jsOrString, if_neg hempty]
          intro h
          exact hne (by rw [hsf, h])
    have h1 : (avifStep cfg.uploadDir o.fileId
        (jsOrString b.sourceFormat "unknown") f.content o fs0).1 =
        PipeSrc.buffer f.content := by
      simp [avifStep, hs']
    have h2 : (avifStep cfg.uploadDir o.fileId
        (jsOrString b.sourceFormat "unknown") f.content o fs0).2.2 = [] := by
      simp [avifStep, hs']
    refine ⟨by rw [hPS, h1], ?_, ?_, ?_⟩
    · intro p hmem
      rw [htr, h2] at hmem
      by_cases hrz : (truthyDim (dimOf b.width) || truthyDim (dimOf b.height))
          = true <;>
        simp [hrz] at hmem <;>
        · have := hrest _ hmem
          simp [stageOf] at this
    · intro hmem
      rw [htr, h2] at hmem
      by_cases hrz : (truthyDim (dimOf b.width) || truthyDim (dimOf b.height))
          = true <;>
        simp [hrz] at hmem <;>
        · have := hrest _ hmem
          simp [stageOf] at this
    · intro hmem
      rw [htr, h2] at hmem
      by_cases hrz : (truthyDim (dimOf b.width) || truthyDim (dimOf b.height))
          = true <;>
        simp [hrz] at hmem <;>
        · have := hrest _ hmem
          simp [stageOf] at this

/-- Witness for C5 at a concrete AVIF-source request whose temp-file
conversion succeeds. -/
theorem optimize_avif_pretranscode_witness :
    ((⟨some fileOk, none, none, none, none, some "avif"⟩ : RequestBody).file =
        some fileOk ∧ fileOk.size ≠ 0 ∧ oracleOk.arrayBufferErr = none ∧
      (⟨some fileOk, none, none, none, none, some "avif"⟩ :
          RequestBody).sourceFormat = some "avif" ∧
      oracleOk.avifToFileRes = .ok [10, 11]) ∧
    ((optimizeHandler cfg0 ⟨some fileOk, none, none, none, none, some "avif"⟩
          oracleOk []).pipeSrc =
        some (PipeSrc.fromFile
          (joinPath cfg0.uploadDir (oracleOk.fileId ++ "_temp.jpg"))) ∧
      Ev.avifTempFile (joinPath cfg0.uploadDir (oracleOk.fileId ++ "_temp.jpg")) ∈
        (optimizeHandler cfg0 ⟨some fileOk, none, none, none, none, some "avif"⟩
            oracleOk []).trace) :=
  ⟨⟨rfl, by decide, rfl, rfl, rfl⟩,
    ((optimize_avif_pretranscode cfg0
          ⟨some fileOk, none, none, none, none, some "avif"⟩ oracleOk []
          fileOk rfl (by decide) rfl).1 rfl).1 [10, 11] rfl⟩

/-- **C10.**  For an AVIF-source request (when `unlinkSync` does not
throw) the temporary JPEG never survives the request, and the upload
directory gains at most the single final output file. -/
theorem optimize_avif_temp_removed (cfg : Config) (b : RequestBody)
    (o : Oracle) (fs0 : FS) (f : FileData) (hf : b.file = some f)
    (hsz : f.size ≠ 0) (hbuf : o.arrayBufferErr = none)
    (hsrc : b.sourceFormat = some "avif") (hunlink : o.unlinkRes = .ok ()) :
    fsExists (optimizeHandler cfg b o fs0).fs
        (joinPath cfg.uploadDir (o.fileId ++ "_temp.jpg")) = false ∧
    ∀ p, fsExists (optimizeHandler cfg b o fs0).fs p = true →
      fsExists fs0 p = true ∨
      p = joinPath cfg.uploadDir (o.fileId ++ "." ++ outputFormatOf b.format) := by
  have hs : jsOrString b.sourceFormat "unknown" = "avif" := by
    simp [jsOrString, hsrc]
  have hclean := avifStep_fs_clean cfg.uploadDir o.fileId f.content o fs0 hunlink
  rcases optimizeHandler_fs_cases cfg b o fs0 f hf hsz hbuf with hfs | ⟨out, hfs⟩ <;>
    rw [hs] at hfs
  · rw [hfs]
    exact ⟨hclean.1, fun p hp => Or.inl (hclean.2 p hp)⟩
  · rw [hfs]
    have hne : joinPath cfg.uploadDir (o.fileId ++ "_temp.jpg") ≠
        joinPath cfg.uploadDir (o.fileId ++ "." ++ outputFormatOf b.format) :=
      joinPath_ne_of_suffix_ne _ _ _
        (Ne.symm (output_ne_temp o.fileId (outputFormatOf b.format)))
    constructor
    · cases hex : fsExists
          (fsWrite (avifStep cfg.uploadDir o.fileId "avif" f.content o fs0).2.1
            (joinPath cfg.uploadDir (o.fileId ++ "." ++ outputFormatOf b.format))
            out)
          (joinPath cfg.uploadDir (o.fileId ++ "_temp.jpg")) with
      | false => rfl
      | true =>
          rcases (fsExists_fsWrite_iff _ _ _ _).mp hex with heq | hex2
          · exact absurd heq hne
          · rw [hclean.1] at hex2
            exact Bool.noConfusion hex2
    · intro p hp
      rcases (fsExists_fsWrite_iff _ _ _ _).mp hp with heq | hzz
      · exact Or.inr heq
      · exact Or.inl (hclean.2 p hzz)

/-- Witness for C10 at a concrete AVIF-source request. -/
theorem optimize_avif_temp_removed_witness :
    ((⟨some fileOk, none, none, none, none, some "avif"⟩ : RequestBody).file =
        some fileOk ∧ fileOk.size ≠ 0 ∧ oracleOk.arrayBufferErr = none ∧
      (⟨some fileOk, none, none, none, none, some "avif"⟩ :
          RequestBody).sourceFormat = some "avif" ∧
      oracleOk.unlinkRes = .ok ()) ∧
    (fsExists (optimizeHandler cfg0
          ⟨some fileOk, none, none, none, none, some "avif"⟩ oracleOk []).fs
        (joinPath cfg0.uploadDir (oracleOk.fileId ++ "_temp.jpg")) = false ∧
      ∀ p, fsExists (optimizeHandler cfg0
            ⟨some fileOk, none, none, none, none, some "avif"⟩ oracleOk []).fs
          p = true →
        fsExists ([] : FS) p = true ∨
        p = joinPath cfg0.uploadDir
            (oracleOk.fileId ++ "." ++ outputFormatOf none)) :=
  ⟨⟨rfl, by decide, rfl, rfl, rfl⟩,
    optimize_avif_temp_removed cfg0
      ⟨some fileOk, none, none, none, none, some "avif"⟩ oracleOk [] fileOk rfl
      (by decide) rfl rfl rfl⟩

/-- **C6 counterexample.**  With `width = "0"` and `height = "5"` the
resize step runs (height is truthy), but the width argument passed to
`resize` is absent (`0 || undefined` is `undefined`), not the supplied
numeric value `0`: the claim's resize event with width `0` never occurs. -/
theorem optimize_resize_zero_width_counterexample :
    Ev.resize none (some 5) "inside" true ∈
      (optimizeHandler cfg0 ⟨some fileOk, none, none, some "0", some "5", none⟩
          oracleOk []).trace ∧
    Ev.resize (some 0) (some 5) "inside" true ∉
      (optimizeHandler cfg0 ⟨some fileOk, none, none, some "0", some "5", none⟩
          oracleOk []).trace := by
  have htr : (optimizeHandler cfg0
      ⟨some fileOk, none, none, some "0", some "5", none⟩ oracleOk []).trace =
      [Ev.validate, Ev.getBuffer, Ev.resize none (some 5) "inside" true,
        Ev.encode "webp" (JSNum.num 80),
        Ev.write "./uploads/id123.webp" [1, 2, 3, 4], Ev.respond 200] := rfl
  rw [htr]
  constructor
  · simp
  · simp

/-- **C6 as amended.**  The resize step (fit `"inside"`,
`withoutEnlargement` true) runs exactly when `Number(width)` or
`Number(height)` of a supplied field is truthy, and each dimension
argument is its numeric value when truthy and absent (`undefined`)
otherwise; when neither is truthy no resize step is applied. -/
theorem optimize_resize_semantics (cfg : Config) (b : RequestBody)
    (o : Oracle) (fs0 : FS) (f : FileData) (hf : b.file = some f)
    (hsz : f.size ≠ 0) (hbuf : o.arrayBufferErr = none) :
    ((truthyDim (dimOf b.width) || truthyDim (dimOf b.height)) = true →
      Ev.resize (dimArg (dimOf b.width)) (dimArg (dimOf b.height)) "inside"
          true ∈ (optimizeHandler cfg b o fs0).trace) ∧
    ((truthyDim (dimOf b.width) || truthyDim (dimOf b.height)) = false →
      ∀ w h fit enl,
        Ev.resize w h fit enl ∉ (optimizeHandler cfg b o fs0).trace) := by
  obtain ⟨rest, htr, hrest, -, -⟩ :=
    optimizeHandler_trace_shape cfg b o fs0 f hf hsz hbuf
  constructor
  · intro hcond
    rw [htr]
    simp [hcond]
  · intro hcond w h fit enl hmem
    rw [htr] at hmem
    rcases avifStep_trace_cases cfg.uploadDir o.fileId
        (jsOrString b.sourceFormat "unknown") f.content o fs0 with
        hA | hA | hA | hA <;>
      rw [hA] at hmem <;>
      simp [hcond] at hmem <;>
      · have := hrest _ hmem
        simp [stageOf] at this

/-- Witness for the amended C6 at `width = "0"`, `height = "5"`. -/
theorem optimize_resize_semantics_witness :
    ((⟨some fileOk, none, none, some "0", some "5", none⟩ : RequestBody).file =
        some fileOk ∧ fileOk.size ≠ 0 ∧ oracleOk.arrayBufferErr = none) ∧
    (((truthyDim (dimOf (some "0")) || truthyDim (dimOf (some "5"))) = true →
        Ev.resize (dimArg (dimOf (some "0"))) (dimArg (dimOf (some "5")))
            "inside" true ∈
          (optimizeHandler cfg0
              ⟨some fileOk, none, none, some "0", some "5", none⟩ oracleOk
              []).trace) ∧
      ((truthyDim (dimOf (some "0")) || truthyDim (dimOf (some "5"))) = false →
        ∀ w h fit enl,
          Ev.resize w h fit enl ∉
            (optimizeHandler cfg0
                ⟨some fileOk, none, none, some "0", some "5", none⟩ oracleOk
                []).trace)) :=
  ⟨⟨rfl, by decide, rfl⟩,
    optimize_resize_semantics cfg0
      ⟨some fileOk, none, none, some "0", some "5", none⟩ oracleOk [] fileOk
      rfl (by decide) rfl⟩

/-- Appending on the left preserves a known last element. -/
theorem getLast?_append_right (l₁ l₂ : List Ev) (x : Ev)
    (h : l₂.getLast? = some x) : (l₁ ++ l₂).getLast? = some x := by
  rw [List.getLast?_append, h]
  rfl

/-- A trace made of a pre-encode part (stages ≤ 4) followed by a tail of
write/respond events (stages ≥ 5) is stage-ordered as soon as both parts
are. -/
theorem trace_pairwise_helper (pre rest : List Ev)
    (hpre : (pre.map stageOf).Pairwise (· ≤ ·))
    (hpre4 : ∀ e ∈ pre, stageOf e ≤ 4)
    (hrest5 : ∀ e ∈ rest, 5 ≤ stageOf e)
    (hrestpw : (rest.map stageOf).Pairwise (· ≤ ·)) :
    (((pre ++ rest).map stageOf)).Pairwise (· ≤ ·) := by
  rw [List.map_append]
  refine List.pairwise_append.mpr ⟨hpre, hrestpw, ?_⟩
  intro a ha s hs
  obtain ⟨e, he, rfl⟩ := List.mem_map.mp ha
  obtain ⟨e', he', rfl⟩ := List.mem_map.mp hs
  have h1 := hpre4 e he
  have h2 := hrest5 e' he'
  omega

/-- **C7.**  The pipeline stages occur in the fixed order validate →
buffer → AVIF pre-transcode → resize → encode → write → respond: every
trace is monotone in the stage numbering, and the trace always ends with
the respond event carrying the returned status (so the output file, when
written, is written before the response is produced). -/
theorem optimize_stage_order (cfg : Config) (b : RequestBody) (o : Oracle)
    (fs0 : FS) :
    (((optimizeHandler cfg b o fs0).trace.map stageOf)).Pairwise (· ≤ ·) ∧
    (optimizeHandler cfg b o fs0).trace.getLast? =
      some (Ev.respond (optimizeHandler cfg b o fs0).status) := by
  rcases hfile : b.file with _ | f
  · exact ⟨by simp [optimizeHandler, hfile, stageOf],
      by simp only [optimizeHandler, hfile]; rfl⟩
  · by_cases hsz : f.size = 0
    · exact ⟨by simp [optimizeHandler, hfile, hsz, stageOf],
        by simp only [optimizeHandler, hfile, if_pos hsz]; rfl⟩
    · rcases hbuf : o.arrayBufferErr with _ | e
      · obtain ⟨rest, htr, hrest, hpw, hlast⟩ :=
          optimizeHandler_trace_shape cfg b o fs0 f hfile hsz hbuf
        rw [htr]
        refine ⟨?_, ?_⟩
        · have hpre : ∀ L, L = [Ev.validate, Ev.getBuffer] ++
              (avifStep cfg.uploadDir o.fileId
                  (jsOrString b.sourceFormat "unknown") f.content o fs0).2.2 ++
              (if truthyDim (dimOf b.width) || truthyDim (dimOf b.height) then
                  [Ev.resize (dimArg (dimOf b.width)) (dimArg (dimOf b.height))
                    "inside" true]
                else []) ++
              [Ev.encode (outputFormatOf b.format) (qualityOf b.quality)] →
              (L.map stageOf).Pairwise (· ≤ ·) ∧ ∀ e ∈ L, stageOf e ≤ 4 := by
            intro L hL
            rcases avifStep_trace_cases cfg.uploadDir o.fileId
                (jsOrString b.sourceFormat "unknown") f.content o fs0 with
                hA | hA | hA | hA <;>
              rw [hA] at hL <;>
              by_cases hrz : (truthyDim (dimOf b.width) ||
                  truthyDim (dimOf b.height)) = true <;>
              simp only [hrz, if_true, if_false, Bool.not_eq_true] at hL <;>
              subst hL <;>
              constructor <;>
              simp [stageOf]
          have hshape := hpre ([Ev.validate, Ev.getBuffer] ++
              (avifStep cfg.uploadDir o.fileId
                  (jsOrString b.sourceFormat "unknown") f.content o fs0).2.2 ++
              (if truthyDim (dimOf b.width) || truthyDim (dimOf b.height) then
                  [Ev.resize (dimArg (dimOf b.width)) (dimArg (dimOf b.height))
                    "inside" true]
                else []) ++
              [Ev.encode (outputFormatOf b.format) (qualityOf b.quality)]) rfl
          have := trace_pairwise_helper _ rest hshape.1 hshape.2 hrest hpw
          simpa [List.append_assoc] using this
        · exact getLast?_append_right _ _ _ hlast
      · exact ⟨by simp [optimizeHandler, hfile, hsz, hbuf, stageOf],
          by simp only [optimizeHandler, hfile, hbuf, if_neg hsz]; rfl⟩

/-! ## Claim about the compression middleware -/

/-- **C9.**  With the default options, when the client's first supported
`Accept-Encoding` value is `br` (and the middleware decides to compress),
the body bytes are produced by the gzip compressor — byte-for-byte what
the `gzip` encoding would produce — while `Content-Encoding` is set to
`"br"`; a response below the 2048-character threshold, with a content
type outside the configured list, or with no supported `Accept-Encoding`
value is returned unchanged with no header touched. -/
theorem compression_br_uses_gzip (gz df : List Nat → List Nat)
    (accept : Option String) (resp : RespModel) (headers : Headers) :
    (preferredEncodingOf (accept.getD "") defaultOptions.encodings =
        some "br" →
      (["application/json", "text/plain", "text/html", "text/css",
          "text/javascript", "application/javascript"].any (fun t =>
            startsWithChars (getContentType resp.isObject headers).data
              t.data)) = true →
      2048 ≤ resp.text.length →
      mapResponse gz df defaultOptions accept resp headers =
        (MapResult.compressed (gz (utf8Bytes resp.text))
            (getContentType resp.isObject headers),
          headerSet headers "Content-Encoding" "br") ∧
      (mapResponse gz df defaultOptions accept resp headers).1 =
        (mapResponse gz df defaultOptions (some "gzip") resp headers).1) ∧
    (resp.text.length < 2048 →
      mapResponse gz df defaultOptions accept resp headers =
        (MapResult.original, headers)) ∧
    ((["application/json", "text/plain", "text/html", "text/css",
        "text/javascript", "application/javascript"].any (fun t =>
          startsWithChars (getContentType resp.isObject headers).data
            t.data)) = false →
      mapResponse gz df defaultOptions accept resp headers =
        (MapResult.original, headers)) ∧
    (preferredEncodingOf (accept.getD "") defaultOptions.encodings = none →
      mapResponse gz df defaultOptions accept resp headers =
        (MapResult.original, headers)) := by
  refine ⟨?_, ?_, ?_, ?_⟩
  · intro hpref hct hlen
    have hg : preferredEncodingOf ((some "gzip" : Option String).getD "")
        defaultOptions.encodings = some "gzip" := rfl
    constructor
    · simp only [mapResponse, hpref]
      simp [isValidEncoding, compressorKeys, defaultOptions, hct,
        compressorFor, not_lt.mpr hlen]
    · simp only [mapResponse, hpref, hg]
      simp [isValidEncoding, compressorKeys, defaultOptions, hct,
        compressorFor, not_lt.mpr hlen]
  · intro hlen
    simp only [mapResponse]
    rcases hp : preferredEncodingOf (accept.getD "") defaultOptions.encodings
        with _ | enc
    · rfl
    · cases hv : isValidEncoding enc with
      | false => simp [hv]
      | true =>
          simp only [hv, Bool.not_true, Bool.false_eq_true, if_false]
          cases hm : (["application/json", "text/plain", "text/html",
              "text/css", "text/javascript", "application/javascript"].any
              (fun t => startsWithChars
                (getContentType resp.isObject headers).data t.data)) with
          | false => simp [defaultOptions, hm]
          | true => simp [defaultOptions, hm, hlen]
  · intro hct
    simp only [mapResponse]
    rcases hp : preferredEncodingOf (accept.getD "") defaultOptions.encodings
        with _ | enc
    · rfl
    · cases hv : isValidEncoding enc with
      | false => simp [hv]
      | true => simp [hv, defaultOptions, hct]
  · intro hp
    simp [mapResponse, hp]

/-- Witness for C9: object response of 2500 characters, client sends
`Accept-Encoding: br, gzip`, no preset headers. -/
theorem compression_br_uses_gzip_witness :
    (preferredEncodingOf ((some "br, gzip" : Option String).getD "")
        defaultOptions.encodings = some "br" ∧
      (["application/json", "text/plain", "text/html", "text/css",
          "text/javascript", "application/javascript"].any (fun t =>
            startsWithChars (getContentType respBig.isObject []).data
              t.data)) = true ∧
      2048 ≤ respBig.text.length) ∧
    (mapResponse id id defaultOptions (some "br, gzip") respBig [] =
        (MapResult.compressed (id (utf8Bytes respBig.text))
            (getContentType respBig.isObject []),
          headerSet [] "Content-Encoding" "br") ∧
      (mapResponse id id defaultOptions (some "br, gzip") respBig []).1 =
        (mapResponse id id defaultOptions (some "gzip") respBig []).1) :=
  ⟨⟨rfl, rfl, by
      show 2048 ≤ (List.replicate 2500 'a').length
      rw [List.length_replicate]
      norm_num⟩,
    (compression_br_uses_gzip id id (some "br, gzip") respBig []).1 rfl rfl
      (by
        show 2048 ≤ (List.replicate 2500 'a').length
        rw [List.length_replicate]
        norm_num)⟩

end ImageOptimizer
